import Mathlib

/-!
Shallow embedding of the Huffman-compression-project Python layer
(`src/python/wrapper.py` and `src/python/demo.py`).

Modelling choices:
* A Python `str` is a list of Unicode code points (`PyStr := List Nat`);
  Python strings may hold lone surrogates, which `str.encode('utf-8')`
  rejects with `UnicodeEncodeError`, so UTF-8 encoding is partial here.
* The filesystem is an association list from path to file contents
  (`FS := List (PyStr × List Nat)`); `os.path.exists` is a lookup,
  `os.remove` a filtered deletion.
* The native library (`libhuffman`) is opaque: it is a parameter
  (`NativeLib`) holding, for each of the two bound entry points, a
  function from the two C path arguments and the current filesystem to
  the resulting filesystem and the integer status code.
* Every foreign call is recorded in a trace (`List FCall`), so
  "no foreign call is made" is the statement that the trace is empty.
* `sys.exit` / an escaping exception are modelled as dedicated outcome
  constructors, since no further code of the modelled layer runs.
-/

/-- A Python `str`: a sequence of Unicode code points (surrogates allowed). -/
abbrev PyStr := List Nat

/-- A byte string (each entry intended `< 256`). -/
abbrev Bytes := List Nat

/-- The filesystem: an association list from path to file contents. -/
abbrev FS := List (PyStr × List Nat)

/-- Contents of the file at path `p`, if it exists (first matching entry). -/
def fsRead (fs : FS) (p : PyStr) : Option (List Nat) :=
  (fs.find? (fun e => e.1 == p)).map (fun e => e.2)

/-- `os.path.exists`. -/
def fsExists (fs : FS) (p : PyStr) : Bool :=
  (fsRead fs p).isSome

/-- `os.remove`: delete every entry at path `p`. -/
def fsRemove (fs : FS) (p : PyStr) : FS :=
  fs.filter (fun e => !(e.1 == p))

/-- Code points of a Lean string literal, as a `PyStr`. -/
def strCodes (s : String) : PyStr :=
  s.data.map Char.toNat

/-- `os.path.join a b` on a POSIX path separator. -/
def ospJoin (a b : PyStr) : PyStr :=
  if b.head? = some 47 then b
  else if a = [] then b
  else if a.getLast? = some 47 then a ++ b
  else a ++ 47 :: b

/-- UTF-8 encoding of one code point, as CPython's `str.encode('utf-8')`
performs it: surrogates (U+D800–U+DFFF) and values above U+10FFFF are
unencodable and raise `UnicodeEncodeError` (here: `none`). -/
def utf8EncodeChar (c : Nat) : Option (List Nat) :=
  if c < 0x80 then some [c]
  else if c < 0x800 then some [0xC0 + c / 0x40, 0x80 + c % 0x40]
  else if c < 0x10000 then
    if 0xD800 ≤ c ∧ c < 0xE000 then none
    else some [0xE0 + c / 0x1000, 0x80 + (c / 0x40) % 0x40, 0x80 + c % 0x40]
  else if c < 0x110000 then
    some [0xF0 + c / 0x40000, 0x80 + (c / 0x1000) % 0x40,
          0x80 + (c / 0x40) % 0x40, 0x80 + c % 0x40]
  else none

/-- `s.encode('utf-8')` for a Python string: fails (raises) as soon as one
code point is unencodable. -/
def pyEncodeUTF8 : PyStr → Option Bytes
  | [] => some []
  | c :: cs =>
    match utf8EncodeChar c with
    | none => none
    | some b =>
      match pyEncodeUTF8 cs with
      | none => none
      | some rest => some (b ++ rest)

/-- The loaded native library: one oracle per bound entry point
(`api_compress_file`, `api_decompress_file`). Each receives the two
UTF-8 encoded path arguments and the current filesystem, and yields the
filesystem after the native side effects together with the `c_int`
status code. -/
structure NativeLib where
  compressCall : Bytes → Bytes → FS → FS × Int
  decompressCall : Bytes → Bytes → FS → FS × Int

/-- One foreign call event, with the exact byte arguments passed. -/
inductive FCall where
  | compressCall (ci co : Bytes)
  | decompressCall (ci co : Bytes)
deriving DecidableEq, Repr

/-- Python's `str.startswith`. -/
def pyStartswith (s pre : PyStr) : Bool :=
  pre.isPrefixOf s

namespace wrapper

/-- `wrapper.py` lines 8–15: pick the shared-library file name from
`sys.platform`. Default is `'libhuffman.so'`; `win*` gives the `.dll`,
`darwin*` the `.dylib`; every other platform keeps the default. -/
def lib_name (platform : PyStr) : PyStr :=
  if pyStartswith platform (strCodes "win") then strCodes "libhuffman.dll"
  else if pyStartswith platform (strCodes "darwin") then strCodes "libhuffman.dylib"
  else strCodes "libhuffman.so"

/-- `wrapper.py` line 19: `os.path.join(os.path.dirname(__file__), '..',
'bin', lib_name)`. -/
def lib_path (platform : PyStr) (moduleDir : PyStr) : PyStr :=
  ospJoin (ospJoin (ospJoin moduleDir (strCodes "..")) (strCodes "bin"))
    (lib_name platform)

/-- `ctypes.CDLL`: loading may fail with `OSError` (`none`). -/
structure Loader where
  load : PyStr → Option NativeLib

/-- Outcome of `wrapper.py`'s module-level code (lines 22–33). -/
inductive InitOutcome where
  /-- Library file absent: message printed, `sys.exit(1)` before any load. -/
  | notFoundExit
  /-- `ctypes.CDLL` raised `OSError`: message printed, `sys.exit(1)`. -/
  | loadFailExit
  /-- Library loaded and both entry points bound. -/
  | loaded (lib : NativeLib)

/-- `wrapper.py` module initialization: existence check on the resolved
path, then the `CDLL` load, exiting on either failure. -/
def moduleInit (loader : Loader) (platform : PyStr) (moduleDir : PyStr)
    (fs : FS) : InitOutcome :=
  if fsExists fs (lib_path platform moduleDir) then
    match loader.load (lib_path platform moduleDir) with
    | some lib => InitOutcome.loaded lib
    | none => InitOutcome.loadFailExit
  else InitOutcome.notFoundExit

/-- `wrapper.compress` (lines 51–76): encode both path strings to UTF-8,
call `api_compress_file`, map status `0` to `true` and anything else to
`false`. `Except.error ()` is the `UnicodeEncodeError` raised before the
foreign call; the second component is the trace of foreign calls made. -/
def compress (lib : NativeLib) (input_path output_path : PyStr) (fs : FS) :
    Except Unit (FS × Bool) × List FCall :=
  match pyEncodeUTF8 input_path with
  | none => (Except.error (), [])
  | some c_input =>
    match pyEncodeUTF8 output_path with
    | none => (Except.error (), [])
    | some c_output =>
      let r := lib.compressCall c_input c_output fs
      (Except.ok (r.1, r.2 == 0), [FCall.compressCall c_input c_output])

/-- `wrapper.decompress` (lines 78–103): same shape as `compress` but
invoking `api_decompress_file`. -/
def decompress (lib : NativeLib) (input_path output_path : PyStr) (fs : FS) :
    Except Unit (FS × Bool) × List FCall :=
  match pyEncodeUTF8 input_path with
  | none => (Except.error (), [])
  | some c_input =>
    match pyEncodeUTF8 output_path with
    | none => (Except.error (), [])
    | some c_output =>
      let r := lib.decompressCall c_input c_output fs
      (Except.ok (r.1, r.2 == 0), [FCall.decompressCall c_input c_output])

end wrapper

namespace demo

/-- `demo.py` line 11: `os.path.join(base_dir, '..', 'test_files')`. -/
def test_files_dir (base_dir : PyStr) : PyStr :=
  ospJoin (ospJoin base_dir (strCodes "..")) (strCodes "test_files")

/-- `demo.py` line 13. -/
def input_file (base_dir : PyStr) : PyStr :=
  ospJoin (test_files_dir base_dir) (strCodes "sample.txt")

/-- `demo.py` line 14. -/
def compressed_file (base_dir : PyStr) : PyStr :=
  ospJoin (test_files_dir base_dir) (strCodes "sample_py.huff")

/-- `demo.py` line 15. -/
def restored_file (base_dir : PyStr) : PyStr :=
  ospJoin (test_files_dir base_dir) (strCodes "restored_py.txt")

/-- The distinct terminal messages a `run_demo` run can print. -/
inductive DemoOutcome where
  /-- Line 19: the fixture `sample.txt` was not found. -/
  | fixtureMissing
  /-- Line 27: `"Demo failed during compression."`. -/
  | compressFailed
  /-- Line 34: `"Demo failed during decompression."`. -/
  | decompressFailed
  /-- Line 41: restored file identical to the original. -/
  | verifySuccess
  /-- Line 43: restored file differs from the original. -/
  | verifyDiffer
  /-- Line 45: `FileNotFoundError` caught from `filecmp.cmp`. -/
  | verifyMissing
  /-- A `UnicodeEncodeError` escaped `run_demo` (no handler exists). -/
  | encodingError
deriving DecidableEq, Repr

/-- `demo.py` lines 38–45: `filecmp.cmp(input_file, restored_file,
shallow=False)` inside `try/except FileNotFoundError`. With
`shallow=False` the comparison is full-content: equal exactly when the
byte sequences are equal; a missing file raises `FileNotFoundError`. -/
def verifyOutcome (fs : FS) (orig restored : PyStr) : DemoOutcome :=
  match fsRead fs orig, fsRead fs restored with
  | some a, some b =>
    if a == b then DemoOutcome.verifySuccess else DemoOutcome.verifyDiffer
  | _, _ => DemoOutcome.verifyMissing

/-- `demo.py` lines 47–52: remove the compressed and restored files when
they exist. -/
def cleanupFiles (fs : FS) (compressed restored : PyStr) : FS :=
  let fs1 := if fsExists fs compressed then fsRemove fs compressed else fs
  if fsExists fs1 restored then fsRemove fs1 restored else fs1

/-- `demo.run_demo` (lines 5–52), parameterized by the loaded library and
by `base_dir` (`os.path.dirname(__file__)`). Returns the terminal
outcome, the final filesystem, and the trace of foreign calls. Early
`return`s on compression or decompression failure skip verification and
cleanup exactly as in the source. -/
def run_demo (lib : NativeLib) (base_dir : PyStr) (fs : FS) :
    DemoOutcome × FS × List FCall :=
  if fsExists fs (input_file base_dir) then
    match wrapper.compress lib (input_file base_dir) (compressed_file base_dir) fs with
    | (Except.error _, t1) => (DemoOutcome.encodingError, fs, t1)
    | (Except.ok (fs1, ok1), t1) =>
      if ok1 then
        match wrapper.decompress lib (compressed_file base_dir) (restored_file base_dir) fs1 with
        | (Except.error _, t2) => (DemoOutcome.encodingError, fs1, t1 ++ t2)
        | (Except.ok (fs2, ok2), t2) =>
          if ok2 then
            (verifyOutcome fs2 (input_file base_dir) (restored_file base_dir),
             cleanupFiles fs2 (compressed_file base_dir) (restored_file base_dir),
             t1 ++ t2)
          else (DemoOutcome.decompressFailed, fs2, t1 ++ t2)
      else (DemoOutcome.compressFailed, fs1, t1)
  else (DemoOutcome.fixtureMissing, fs, [])

/-- `demo.py` line 57: the `__main__` guard always looks for the Linux
name `'libhuffman.so'` under `../bin`, whatever the platform. -/
def mainGuardLibPath (base_dir : PyStr) : PyStr :=
  ospJoin (ospJoin (ospJoin base_dir (strCodes "..")) (strCodes "bin"))
    (strCodes "libhuffman.so")

/-- Outcome of running `demo.py` as a script. -/
inductive MainOutcome where
  /-- `import wrapper` terminated the process (`sys.exit(1)`). -/
  | importExit
  /-- Line 59: `"Error: 'bin/libhuffman.so' not found."`; `run_demo` is
  not invoked. -/
  | libMissingMessage
  /-- `run_demo` ran, with this result. -/
  | demoRan (res : DemoOutcome × FS × List FCall)

/-- `demo.py` lines 54–62 including the module import of `wrapper` (which
runs `wrapper.py`'s initialization first): `demo.py` and `wrapper.py`
share a directory, so both use the same `base_dir`. -/
def demo_main (loader : wrapper.Loader) (platform : PyStr) (base_dir : PyStr)
    (fs : FS) : MainOutcome :=
  match wrapper.moduleInit loader platform base_dir fs with
  | wrapper.InitOutcome.loaded lib =>
    if fsExists fs (mainGuardLibPath base_dir) then
      MainOutcome.demoRan (run_demo lib base_dir fs)
    else MainOutcome.libMissingMessage
  | _ => MainOutcome.importExit

end demo

/-! Concrete instances used to evaluate the model on closed inputs. -/

/-- Relabel a foreign-call event to the other entry point, keeping the
byte arguments. -/
def retagFCall : FCall → FCall
  | FCall.compressCall ci co => FCall.decompressCall ci co
  | FCall.decompressCall ci co => FCall.compressCall ci co

/-- A concrete `base_dir` (`os.path.dirname(__file__)`). -/
def demoDir : PyStr := strCodes "python"

/-- A filesystem holding only the fixture `sample.txt` with contents
`"hi"`. -/
def sampleFS : FS := [(demo.input_file demoDir, [104, 105])]

/-- A native library whose compressor writes a partial artifact to the
output path and then reports failure (status `1`). -/
def failCompressLib : NativeLib :=
  ⟨fun _ co fs => ((co, [99]) :: fs, 1), fun _ _ fs => (fs, 0)⟩

/-- A native library realizing a perfect round trip on `sampleFS`: the
compressor writes `[1, 2]` to its output and the decompressor restores
`[104, 105]`. Both report status `0`. -/
def roundTripLib : NativeLib :=
  ⟨fun _ co fs => ((co, [1, 2]) :: fs, 0), fun _ co fs => ((co, [104, 105]) :: fs, 0)⟩

/-- A native library with fixed status codes `0` (compress) and `5`
(decompress) and no filesystem effect. -/
def statusLib : NativeLib :=
  ⟨fun _ _ fs => (fs, 0), fun _ _ fs => (fs, 5)⟩

/-- A loader that always succeeds, yielding `roundTripLib`. -/
def stubLoader : wrapper.Loader := ⟨fun _ => some roundTripLib⟩

/-- A filesystem holding only the Windows library `libhuffman.dll` at the
path the bridge resolves for platform `win32`. -/
def winFS : FS := [(wrapper.lib_path (strCodes "win32") demoDir, [0])]

/-- Filesystem after `roundTripLib`'s compressor ran on `sampleFS`. -/
def rtFS1 : FS := (demo.compressed_file demoDir, [1, 2]) :: sampleFS

/-- Filesystem after `roundTripLib`'s decompressor ran on `rtFS1`. -/
def rtFS2 : FS := (demo.restored_file demoDir, [104, 105]) :: rtFS1

/-! Helper lemmas about the filesystem model. -/

/-- After removing path `p`, reading `p` yields nothing. -/
theorem fsRead_fsRemove_self (fs : FS) (p : PyStr) :
    fsRead (fsRemove fs p) p = none := by
  induction fs with
  | nil => rfl
  | cons e fs ih =>
    by_cases h : (e.1 == p) = true
    · simp only [fsRemove, List.filter_cons, h, Bool.not_true, if_false] at *
      exact ih
    · simp only [Bool.not_eq_true] at h
      simp only [fsRemove, fsRead, List.filter_cons, List.find?_cons, h,
        Bool.not_false, if_true] at *
      exact ih

/-- Removing a path never makes another path appear. -/
theorem fsRead_fsRemove_none (fs : FS) (p q : PyStr)
    (h : fsRead fs p = none) : fsRead (fsRemove fs q) p = none := by
  induction fs with
  | nil => rfl
  | cons e fs ih =>
    by_cases he : (e.1 == p) = true
    · simp [fsRead, List.find?_cons, he] at h
    · simp only [Bool.not_eq_true] at he
      simp only [fsRead, List.find?_cons, he] at h
      by_cases hq : (e.1 == q) = true
      · simpa [fsRemove, List.filter_cons, hq] using ih h
      · simp only [Bool.not_eq_true] at hq
        simpa [fsRemove, fsRead, List.filter_cons, List.find?_cons, he, hq] using ih h

/-- A path that reads as absent does not exist. -/
theorem fsExists_eq_false_of_fsRead (g : FS) (p : PyStr)
    (h : fsRead g p = none) : fsExists g p = false := by
  simp [fsExists, h]

/-- One `if exists then remove` step of the cleanup block erases its own
path. -/
theorem removeStep_self (g : FS) (p : PyStr) :
    fsRead (if fsExists g p then fsRemove g p else g) p = none := by
  by_cases h : fsExists g p = true
  · simp only [h, if_true]
    exact fsRead_fsRemove_self g p
  · simp only [Bool.not_eq_true] at h
    simp only [h, Bool.false_eq_true, if_false]
    simpa [fsExists, Option.isSome_iff_ne_none] using h

/-- One `if exists then remove` step of the cleanup block keeps absent
paths absent. -/
theorem removeStep_none (g : FS) (p q : PyStr) (h : fsRead g p = none) :
    fsRead (if fsExists g q then fsRemove g q else g) p = none := by
  by_cases hq : fsExists g q = true
  · simp only [hq, if_true]
    exact fsRead_fsRemove_none g p q h
  · simp only [Bool.not_eq_true] at hq
    simpa [hq] using h

/-- `demo.py`'s cleanup block leaves neither the compressed nor the
restored file behind. -/
theorem cleanupFiles_removes (fs : FS) (c r : PyStr) :
    fsExists (demo.cleanupFiles fs c r) c = false ∧
    fsExists (demo.cleanupFiles fs c r) r = false := by
  have hgoal : demo.cleanupFiles fs c r =
      (if fsExists (if fsExists fs c then fsRemove fs c else fs) r
       then fsRemove (if fsExists fs c then fsRemove fs c else fs) r
       else (if fsExists fs c then fsRemove fs c else fs)) := rfl
  rw [hgoal]
  exact ⟨fsExists_eq_false_of_fsRead _ _ (removeStep_none _ _ _ (removeStep_self fs c)),
         fsExists_eq_false_of_fsRead _ _ (removeStep_self _ r)⟩

/-! Claim C1. -/

/-- C1 counterexample: a harness run in which the native compressor leaves
a partial compressed file and returns nonzero ends with outcome
`compressFailed`, yet the compressed file still exists after the run —
the early `return` in `demo.py` line 28 skips the cleanup block, so the
claim that cleanup is still attempted on such an abort is false. -/
theorem run_demo_leaves_artifact_on_abort :
    (demo.run_demo failCompressLib demoDir sampleFS).1 =
      demo.DemoOutcome.compressFailed ∧
    fsExists (demo.run_demo failCompressLib demoDir sampleFS).2.1
      (demo.compressed_file demoDir) = true := by
  decide

/-- C1 (amended): only runs that complete the whole pipeline (the outcome
is one of the three `Verify` outcomes) reach the cleanup block; after
such a run neither the intermediate compressed file nor the restored
file exists. Runs aborted at `Compress` or `Decompress` return without
any deletion attempt. -/
theorem run_demo_cleanup_after_full_pipeline
    (lib : NativeLib) (base_dir : PyStr) (fs : FS)
    (h : (demo.run_demo lib base_dir fs).1 = demo.DemoOutcome.verifySuccess ∨
         (demo.run_demo lib base_dir fs).1 = demo.DemoOutcome.verifyDiffer ∨
         (demo.run_demo lib base_dir fs).1 = demo.DemoOutcome.verifyMissing) :
    fsExists (demo.run_demo lib base_dir fs).2.1 (demo.compressed_file base_dir) = false ∧
    fsExists (demo.run_demo lib base_dir fs).2.1 (demo.restored_file base_dir) = false := by
  cases hf : fsExists fs (demo.input_file base_dir) with
  | false => simp [demo.run_demo, hf] at h
  | true =>
    rcases hc : wrapper.compress lib (demo.input_file base_dir)
        (demo.compressed_file base_dir) fs with ⟨res1, t1⟩
    cases res1 with
    | error e => simp [demo.run_demo, hf, hc] at h
    | ok p1 =>
      rcases p1 with ⟨fs1, ok1⟩
      cases ok1 with
      | false => simp [demo.run_demo, hf, hc] at h
      | true =>
        rcases hd : wrapper.decompress lib (demo.compressed_file base_dir)
            (demo.restored_file base_dir) fs1 with ⟨res2, t2⟩
        cases res2 with
        | error e => simp [demo.run_demo, hf, hc, hd] at h
        | ok p2 =>
          rcases p2 with ⟨fs2, ok2⟩
          cases ok2 with
          | false => simp [demo.run_demo, hf, hc, hd] at h
          | true =>
            simp only [demo.run_demo, hf, hc, hd, if_true]
            exact cleanupFiles_removes fs2 _ _

/-- C1 witness: a concrete successful round trip, after which neither
artifact exists. -/
theorem run_demo_cleanup_after_full_pipeline_witness :
    fsExists (demo.run_demo roundTripLib demoDir sampleFS).2.1
      (demo.compressed_file demoDir) = false ∧
    fsExists (demo.run_demo roundTripLib demoDir sampleFS).2.1
      (demo.restored_file demoDir) = false :=
  run_demo_cleanup_after_full_pipeline roundTripLib demoDir sampleFS
    (Or.inl (by decide))

/-! Claim C2. -/

/-- C2 counterexample: `'freebsd13'` matches none of the three recognized
platform families, yet `lib_name` silently yields the Linux name
`'libhuffman.so'` — no error condition of any kind exists in the code
(`wrapper.py` line 8 assigns the Linux name as the unconditional
default), so unrecognized platforms are not treated as errors. -/
theorem lib_name_defaults_on_unrecognized_platform :
    pyStartswith (strCodes "freebsd13") (strCodes "win") = false ∧
    pyStartswith (strCodes "freebsd13") (strCodes "darwin") = false ∧
    wrapper.lib_name (strCodes "freebsd13") = strCodes "libhuffman.so" := by
  decide

/-- C2 (amended): for every platform identifier outside the Windows-like
and macOS-like families — recognized Linux-like platforms and
unrecognized platforms alike — `lib_name` resolves to the Linux library
name `'libhuffman.so'`; unrecognized platforms are silently defaulted,
never treated as an error. -/
theorem lib_name_silent_default (platform : PyStr)
    (h1 : pyStartswith platform (strCodes "win") = false)
    (h2 : pyStartswith platform (strCodes "darwin") = false) :
    wrapper.lib_name platform = strCodes "libhuffman.so" := by
  simp [wrapper.lib_name, h1, h2]

/-- C2 witness: the unrecognized platform `'plan9'` resolves to the Linux
library name. -/
theorem lib_name_silent_default_witness :
    wrapper.lib_name (strCodes "plan9") = strCodes "libhuffman.so" :=
  lib_name_silent_default (strCodes "plan9") (by decide) (by decide)

/-! Claim C5. -/

/-- C5: when the fixture `sample.txt` does not exist, `run_demo` stops at
the precondition check with the "not found" outcome, leaves the
filesystem untouched, and makes no foreign call at all (empty trace), so
neither `compress` nor `decompress` is invoked. -/
theorem missing_fixture_aborts_without_foreign_calls
    (lib : NativeLib) (base_dir : PyStr) (fs : FS)
    (h : fsExists fs (demo.input_file base_dir) = false) :
    demo.run_demo lib base_dir fs = (demo.DemoOutcome.fixtureMissing, fs, []) := by
  simp [demo.run_demo, h]

/-- C5 witness: on an empty filesystem the fixture is absent and the run
aborts with no foreign calls. -/
theorem missing_fixture_aborts_without_foreign_calls_witness :
    demo.run_demo roundTripLib demoDir [] =
      (demo.DemoOutcome.fixtureMissing, [], []) :=
  missing_fixture_aborts_without_foreign_calls roundTripLib demoDir [] (by decide)

/-! Claim C4. -/

/-- C4: when the native compressor returns a nonzero status, `run_demo`
ends at the `Compress` stage with outcome `compressFailed`; the whole
result is pinned down: the filesystem is exactly the one the compressor
left behind, and the foreign-call trace holds the single compress call —
so neither `decompress` nor the verification comparison ever ran. -/
theorem compress_failure_aborts_run
    (lib : NativeLib) (base_dir : PyStr) (fs : FS) (ci co : Bytes)
    (fs1 : FS) (code : Int)
    (hfix : fsExists fs (demo.input_file base_dir) = true)
    (e1 : pyEncodeUTF8 (demo.input_file base_dir) = some ci)
    (e2 : pyEncodeUTF8 (demo.compressed_file base_dir) = some co)
    (hcall : lib.compressCall ci co fs = (fs1, code))
    (hcode : code ≠ 0) :
    demo.run_demo lib base_dir fs =
      (demo.DemoOutcome.compressFailed, fs1, [FCall.compressCall ci co]) := by
  have hb : (code == 0) = false := by simpa using hcode
  simp [demo.run_demo, wrapper.compress, hfix, e1, e2, hcall, hb]

/-- C4 witness: the compressor of `failCompressLib` returns status `1` on
the sample filesystem, and the run ends at `Compress` with one foreign
call. -/
theorem compress_failure_aborts_run_witness :
    demo.run_demo failCompressLib demoDir sampleFS =
      (demo.DemoOutcome.compressFailed,
       (demo.compressed_file demoDir, [99]) :: sampleFS,
       [FCall.compressCall (demo.input_file demoDir) (demo.compressed_file demoDir)]) :=
  compress_failure_aborts_run failCompressLib demoDir sampleFS
    (demo.input_file demoDir) (demo.compressed_file demoDir)
    ((demo.compressed_file demoDir, [99]) :: sampleFS) 1
    (by decide) (by decide) (by decide) (by decide) (by decide)

/-! Claim C6. -/

/-- C6: whenever the resolved library path does not exist, module
initialization ends in `notFoundExit` (the "must be built" message plus
`sys.exit(1)`), for every possible loader — so no load and no foreign
call is ever attempted, and no loaded bridge (`InitOutcome.loaded`)
exists afterward. -/
theorem missing_library_fails_init_before_load
    (loader : wrapper.Loader) (platform moduleDir : PyStr) (fs : FS)
    (h : fsExists fs (wrapper.lib_path platform moduleDir) = false) :
    wrapper.moduleInit loader platform moduleDir fs =
      wrapper.InitOutcome.notFoundExit := by
  simp [wrapper.moduleInit, h]

/-- C6 witness: on an empty filesystem the Linux library path is absent
and initialization exits at the existence check even though the loader
would have succeeded. -/
theorem missing_library_fails_init_before_load_witness :
    wrapper.moduleInit stubLoader (strCodes "linux") demoDir [] =
      wrapper.InitOutcome.notFoundExit :=
  missing_library_fails_init_before_load stubLoader (strCodes "linux") demoDir []
    (by decide)

/-! Claim C8. -/

/-- C8: if either path string fails UTF-8 encoding (a lone surrogate, for
instance), both `wrapper.compress` and `wrapper.decompress` raise before
the foreign call: the result is the `UnicodeEncodeError` outcome and the
foreign-call trace is empty, so no malformed byte sequence ever crosses
the boundary and the native entry point is not invoked. -/
theorem encoding_failure_blocks_foreign_call
    (lib : NativeLib) (input output : PyStr) (fs : FS)
    (h : pyEncodeUTF8 input = none ∨ pyEncodeUTF8 output = none) :
    wrapper.compress lib input output fs = (Except.error (), []) ∧
    wrapper.decompress lib input output fs = (Except.error (), []) := by
  rcases h with h | h
  · simp [wrapper.compress, wrapper.decompress, h]
  · cases he : pyEncodeUTF8 input with
    | none => simp [wrapper.compress, wrapper.decompress, he]
    | some ci => simp [wrapper.compress, wrapper.decompress, he, h]

/-- C8 witness: the one-character path holding the lone surrogate U+D800
is unencodable, and both wrapper operations fail with an empty trace. -/
theorem encoding_failure_blocks_foreign_call_witness :
    wrapper.compress roundTripLib [0xD800] (strCodes "out.huff") [] =
      (Except.error (), []) ∧
    wrapper.decompress roundTripLib [0xD800] (strCodes "out.huff") [] =
      (Except.error (), []) :=
  encoding_failure_blocks_foreign_call roundTripLib [0xD800] (strCodes "out.huff") []
    (Or.inl (by decide))

/-! Claim C10. -/

/-- C10: on a Windows-like or macOS-like platform where the bridge
resolved, found and successfully loaded the platform-appropriate library
(`libhuffman.dll` / `libhuffman.dylib`), the `__main__` guard of
`demo.py` still looks only for the literal Linux name `libhuffman.so`;
when that file is absent the guard reports the library missing and
`run_demo` is never invoked. -/
theorem main_guard_checks_linux_name_only
    (loader : wrapper.Loader) (platform base_dir : PyStr) (fs : FS) (lib : NativeLib)
    (_hplat : pyStartswith platform (strCodes "win") = true ∨
              pyStartswith platform (strCodes "darwin") = true)
    (hlib : fsExists fs (wrapper.lib_path platform base_dir) = true)
    (hload : loader.load (wrapper.lib_path platform base_dir) = some lib)
    (hso : fsExists fs (demo.mainGuardLibPath base_dir) = false) :
    demo.demo_main loader platform base_dir fs =
      demo.MainOutcome.libMissingMessage := by
  simp [demo.demo_main, wrapper.moduleInit, hlib, hload, hso]

/-- C10 witness: platform `win32` with only `libhuffman.dll` present: the
bridge initializes, yet the entry guard refuses to run the demo. -/
theorem main_guard_checks_linux_name_only_witness :
    demo.demo_main stubLoader (strCodes "win32") demoDir winFS =
      demo.MainOutcome.libMissingMessage :=
  main_guard_checks_linux_name_only stubLoader (strCodes "win32") demoDir winFS
    roundTripLib (Or.inl (by decide)) (by decide) (by rfl) (by decide)

/-! Claim C3. -/

/-- C3: once both paths encode, `compress` succeeds (returns `true`)
exactly when the bound `api_compress_file` returned the integer `0`, and
returns `false` for every nonzero status; `decompress` obeys the same
mapping for `api_decompress_file`. No nonzero value is distinguished
from any other: the boolean depends only on whether the status is `0`. -/
theorem status_zero_iff_success
    (lib : NativeLib) (input output : PyStr) (fs : FS) (ci co : Bytes)
    (fs1 fs2 : FS) (c1 c2 : Int)
    (e1 : pyEncodeUTF8 input = some ci)
    (e2 : pyEncodeUTF8 output = some co)
    (h1 : lib.compressCall ci co fs = (fs1, c1))
    (h2 : lib.decompressCall ci co fs = (fs2, c2)) :
    (((wrapper.compress lib input output fs).1 = Except.ok (fs1, true)) ↔ c1 = 0) ∧
    (((wrapper.compress lib input output fs).1 = Except.ok (fs1, false)) ↔ c1 ≠ 0) ∧
    (((wrapper.decompress lib input output fs).1 = Except.ok (fs2, true)) ↔ c2 = 0) ∧
    (((wrapper.decompress lib input output fs).1 = Except.ok (fs2, false)) ↔ c2 ≠ 0) := by
  simp [wrapper.compress, wrapper.decompress, e1, e2, h1, h2]

/-- C3 witness: `statusLib` returns `0` from compress and `5` from
decompress, so `compress` maps to `true` and `decompress` to `false`. -/
theorem status_zero_iff_success_witness :
    (((wrapper.compress statusLib (strCodes "a") (strCodes "b") []).1 =
        Except.ok (([] : FS), true)) ↔ (0 : Int) = 0) ∧
    (((wrapper.compress statusLib (strCodes "a") (strCodes "b") []).1 =
        Except.ok (([] : FS), false)) ↔ (0 : Int) ≠ 0) ∧
    (((wrapper.decompress statusLib (strCodes "a") (strCodes "b") []).1 =
        Except.ok (([] : FS), true)) ↔ (5 : Int) = 0) ∧
    (((wrapper.decompress statusLib (strCodes "a") (strCodes "b") []).1 =
        Except.ok (([] : FS), false)) ↔ (5 : Int) ≠ 0) :=
  status_zero_iff_success statusLib (strCodes "a") (strCodes "b") []
    (strCodes "a") (strCodes "b") [] [] 0 5 (by decide) (by decide) rfl rfl

/-! Claim C9. -/

/-- C9: `decompress` is symmetric to `compress`: for every pair of paths,
any library whose compress entry point computes what the other library's
decompress entry point computes produces the identical result value —
same UTF-8 encoding of both arguments, same status-to-boolean mapping —
and a foreign-call trace identical up to which entry point is named. -/
theorem decompress_symmetric_to_compress
    (lib1 lib2 : NativeLib) (input output : PyStr) (fs : FS)
    (h : lib2.compressCall = lib1.decompressCall) :
    (wrapper.decompress lib1 input output fs).1 =
      (wrapper.compress lib2 input output fs).1 ∧
    (wrapper.decompress lib1 input output fs).2 =
      (wrapper.compress lib2 input output fs).2.map retagFCall := by
  unfold wrapper.compress wrapper.decompress
  rw [h]
  cases he1 : pyEncodeUTF8 input with
  | none => simp
  | some ci =>
    cases he2 : pyEncodeUTF8 output with
    | none => simp
    | some co => simp [retagFCall]

/-- C9 witness: `roundTripLib` against its own entry-point-swapped
variant, at concrete paths. -/
theorem decompress_symmetric_to_compress_witness :
    (wrapper.decompress roundTripLib (strCodes "a.txt") (strCodes "b.huff") sampleFS).1 =
      (wrapper.compress ⟨roundTripLib.decompressCall, roundTripLib.compressCall⟩
        (strCodes "a.txt") (strCodes "b.huff") sampleFS).1 ∧
    (wrapper.decompress roundTripLib (strCodes "a.txt") (strCodes "b.huff") sampleFS).2 =
      (wrapper.compress ⟨roundTripLib.decompressCall, roundTripLib.compressCall⟩
        (strCodes "a.txt") (strCodes "b.huff") sampleFS).2.map retagFCall :=
  decompress_symmetric_to_compress roundTripLib
    ⟨roundTripLib.decompressCall, roundTripLib.compressCall⟩
    (strCodes "a.txt") (strCodes "b.huff") sampleFS rfl

/-! Claim C7. -/

/-- C7: on a run that reaches `Verify` (both foreign calls returned `0`),
the reported outcome is exactly one of three mutually distinct verdicts
computed by full-content comparison of the fixture and the restored
file: `verifySuccess` iff both files exist with byte-identical contents,
`verifyDiffer` iff both exist with different contents, and
`verifyMissing` (the caught `FileNotFoundError`) iff a compared file is
absent — and it is never any of the operation-failure or
escaped-exception outcomes. -/
theorem verify_stage_three_outcomes
    (lib : NativeLib) (base_dir : PyStr) (fs : FS) (ci co cr : Bytes)
    (fs1 fs2 : FS)
    (hfix : fsExists fs (demo.input_file base_dir) = true)
    (e1 : pyEncodeUTF8 (demo.input_file base_dir) = some ci)
    (e2 : pyEncodeUTF8 (demo.compressed_file base_dir) = some co)
    (e3 : pyEncodeUTF8 (demo.restored_file base_dir) = some cr)
    (h1 : lib.compressCall ci co fs = (fs1, 0))
    (h2 : lib.decompressCall co cr fs1 = (fs2, 0)) :
    ((demo.run_demo lib base_dir fs).1 = demo.DemoOutcome.verifySuccess ↔
      ((fsRead fs2 (demo.input_file base_dir)).isSome = true ∧
       (fsRead fs2 (demo.restored_file base_dir)).isSome = true ∧
       fsRead fs2 (demo.input_file base_dir) =
         fsRead fs2 (demo.restored_file base_dir))) ∧
    ((demo.run_demo lib base_dir fs).1 = demo.DemoOutcome.verifyDiffer ↔
      ((fsRead fs2 (demo.input_file base_dir)).isSome = true ∧
       (fsRead fs2 (demo.restored_file base_dir)).isSome = true ∧
       fsRead fs2 (demo.input_file base_dir) ≠
         fsRead fs2 (demo.restored_file base_dir))) ∧
    ((demo.run_demo lib base_dir fs).1 = demo.DemoOutcome.verifyMissing ↔
      (fsRead fs2 (demo.input_file base_dir) = none ∨
       fsRead fs2 (demo.restored_file base_dir) = none)) ∧
    (demo.run_demo lib base_dir fs).1 ≠ demo.DemoOutcome.compressFailed ∧
    (demo.run_demo lib base_dir fs).1 ≠ demo.DemoOutcome.decompressFailed ∧
    (demo.run_demo lib base_dir fs).1 ≠ demo.DemoOutcome.encodingError := by
  have hrun : (demo.run_demo lib base_dir fs).1 =
      demo.verifyOutcome fs2 (demo.input_file base_dir) (demo.restored_file base_dir) := by
    simp [demo.run_demo, wrapper.compress, wrapper.decompress,
      hfix, e1, e2, e3, h1, h2]
  rw [hrun]
  unfold demo.verifyOutcome
  rcases ho : fsRead fs2 (demo.input_file base_dir) with _ | a
  · simp [ho]
  · rcases hr2 : fsRead fs2 (demo.restored_file base_dir) with _ | b
    · simp [hr2]
    · by_cases hab : a = b
      · simp [hab]
      · simp [hab]

/-- C7 witness: the concrete successful round trip on `sampleFS`, where
both files exist with identical contents — the verdict is
`verifySuccess` and no other outcome. -/
theorem verify_stage_three_outcomes_witness :
    ((demo.run_demo roundTripLib demoDir sampleFS).1 = demo.DemoOutcome.verifySuccess ↔
      ((fsRead rtFS2 (demo.input_file demoDir)).isSome = true ∧
       (fsRead rtFS2 (demo.restored_file demoDir)).isSome = true ∧
       fsRead rtFS2 (demo.input_file demoDir) =
         fsRead rtFS2 (demo.restored_file demoDir))) ∧
    ((demo.run_demo roundTripLib demoDir sampleFS).1 = demo.DemoOutcome.verifyDiffer ↔
      ((fsRead rtFS2 (demo.input_file demoDir)).isSome = true ∧
       (fsRead rtFS2 (demo.restored_file demoDir)).isSome = true ∧
       fsRead rtFS2 (demo.input_file demoDir) ≠
         fsRead rtFS2 (demo.restored_file demoDir))) ∧
    ((demo.run_demo roundTripLib demoDir sampleFS).1 = demo.DemoOutcome.verifyMissing ↔
      (fsRead rtFS2 (demo.input_file demoDir) = none ∨
       fsRead rtFS2 (demo.restored_file demoDir) = none)) ∧
    (demo.run_demo roundTripLib demoDir sampleFS).1 ≠ demo.DemoOutcome.compressFailed ∧
    (demo.run_demo roundTripLib demoDir sampleFS).1 ≠ demo.DemoOutcome.decompressFailed ∧
    (demo.run_demo roundTripLib demoDir sampleFS).1 ≠ demo.DemoOutcome.encodingError :=
  verify_stage_three_outcomes roundTripLib demoDir sampleFS
    (demo.input_file demoDir) (demo.compressed_file demoDir)
    (demo.restored_file demoDir) rtFS1 rtFS2
    (by decide) (by decide) (by decide) (by decide) rfl rfl
